import Mathlib

/-!
Shallow embedding of the event-photo-platform repository: the Prisma data
model (`prisma/schema.prisma`, embedded in `package.json` of the source tree)
and the route-level lifecycle operations (event detail loader, event
update/delete actions, photo upload/delete, face-matching initiation,
participant listing/creation, and the login form strategy).

Modelling conventions:
* The relational store is a record of lists of rows; `findFirst`/`findUnique`
  become `List.find?` over those lists (result ordering of queries is not
  observable in any verified claim and is not modelled).
* Prisma's declared referential actions (`onDelete: Cascade` / `SetNull`)
  are modelled by explicit cascade functions derived from the schema.
* `createdAt`/`updatedAt` auto-timestamps are not modelled; no claim
  depends on them.  `Float` columns (match confidence, money amounts) are
  not modelled for the same reason.
* External ports (bcrypt comparison, the zod e-mail regex, `Date.parse`)
  are passed in as opaque function parameters, exactly as the spec treats
  them (opaque capabilities).
* Freshly generated cuids and the storage URL returned by the storage port
  are passed as explicit parameters to the operations that create rows.
* Externally visible side effects (storage calls, compute-trigger calls,
  store mutations) are recorded in order in an effect trace.
-/

namespace PhotoDistributor

/-- `Role` enum of the Prisma schema. -/
inductive Role where
  | ORGANIZATION_ADMIN
  | ORGANIZATION_EDITOR
  | ORGANIZATION_VIEWER
  | INDIVIDUAL_USER
deriving DecidableEq, Repr

/-- `EventStatus` enum of the Prisma schema. -/
inductive EventStatus where
  | DRAFT
  | UPCOMING
  | ACTIVE
  | COMPLETED
  | ARCHIVED
deriving DecidableEq, Repr

/-- `PhotoReviewStatus` enum of the Prisma schema. -/
inductive PhotoReviewStatus where
  | PENDING
  | APPROVED
  | REJECTED
deriving DecidableEq, Repr

/-- `FaceMatchingTaskStatus` enum of the Prisma schema. -/
inductive FaceMatchingTaskStatus where
  | PENDING
  | PROCESSING
  | COMPLETED
  | FAILED
deriving DecidableEq, Repr

/-- `ConsentType` enum of the Prisma schema. -/
inductive ConsentType where
  | PHOTO_STORAGE
  | FACIAL_RECOGNITION
  | DATA_SHARING
deriving DecidableEq, Repr

/-- `ConsentActionStatus` enum of the Prisma schema. -/
inductive ConsentActionStatus where
  | GRANTED
  | REVOKED
deriving DecidableEq, Repr

/-- Row of the `User` model (credential and identity fields used by the
verified operations). -/
structure UserRow where
  id : String
  email : String
  passwordHash : String
  name : Option String
  role : Role
deriving DecidableEq, Repr

/-- Row of the `OrganizationUser` junction model. -/
structure OrganizationUserRow where
  id : String
  userId : String
  orgId : String
deriving DecidableEq, Repr

/-- Row of the `Event` model.  `DateTime` columns are modelled as `Nat`
epoch timestamps. -/
structure EventRow where
  id : String
  orgId : String
  categoryId : Option String
  name : String
  dateStart : Nat
  dateEnd : Option Nat
  status : EventStatus
  description : Option String
  locationName : Option String
  locationAddress : Option String
  isPublic : Bool
deriving DecidableEq, Repr

/-- Row of the `Participant` model. -/
structure ParticipantRow where
  id : String
  eventId : String
  userId : Option String
  name : Option String
  email : Option String
  registrationStatus : Option String
  consentStatus : Bool
  referencePhotoUrl : Option String
deriving DecidableEq, Repr

/-- Row of the `EventPhoto` model. -/
structure EventPhotoRow where
  id : String
  eventId : String
  uploaderUserId : String
  imageUrl : String
  thumbnailUrl : Option String
  uploadTime : Nat
  reviewStatus : PhotoReviewStatus
  isPublic : Bool
deriving DecidableEq, Repr

/-- Row of the `DetectedFace` model (bounding-box/descriptor payloads are
not read by any verified operation). -/
structure DetectedFaceRow where
  id : String
  photoId : String
deriving DecidableEq, Repr

/-- Row of the `PhotoParticipantMatch` model (the `Float` confidence score
is not modelled). -/
structure PhotoParticipantMatchRow where
  id : String
  photoId : String
  participantId : String
deriving DecidableEq, Repr

/-- Row of the `FaceMatchingTask` model. -/
structure FaceMatchingTaskRow where
  id : String
  eventId : String
  status : FaceMatchingTaskStatus
  awsRequestId : Option String
  errorDetails : Option String
deriving DecidableEq, Repr

/-- Row of the `ConsentLog` model. -/
structure ConsentLogRow where
  id : String
  userId : String
  eventId : Option String
  participantId : Option String
  type : ConsentType
  status : ConsentActionStatus
  details : Option String
deriving DecidableEq, Repr

/-- The relational store: one list of rows per model of the schema
(billing mirror tables are omitted; no verified claim touches them). -/
structure DB where
  users : List UserRow
  organizationUsers : List OrganizationUserRow
  events : List EventRow
  participants : List ParticipantRow
  eventPhotos : List EventPhotoRow
  detectedFaces : List DetectedFaceRow
  photoParticipantMatches : List PhotoParticipantMatchRow
  faceMatchingTasks : List FaceMatchingTaskRow
  consentLogs : List ConsentLogRow
deriving DecidableEq, Repr

/-- `prisma.organizationUser.findFirst({ where: { userId } })` — the
tenancy-resolution lookup shared by every route. -/
def findOrgUser (db : DB) (userId : String) : Option OrganizationUserRow :=
  db.organizationUsers.find? (fun m => m.userId == userId)

/-- `prisma.event.findFirst/findUnique({ where: { id, orgId } })` — the
org-scoped event resolution used by every event route. -/
def findEventScoped (db : DB) (eventId orgId : String) : Option EventRow :=
  db.events.find? (fun e => e.id == eventId && e.orgId == orgId)

/-- `prisma.eventPhoto.findFirst({ where: { id: photoId, eventId } })` from
the delete-photo intent. -/
def findPhotoScoped (db : DB) (photoId eventId : String) : Option EventPhotoRow :=
  db.eventPhotos.find? (fun p => p.id == photoId && p.eventId == eventId)

/-- `prisma.participant.findFirst({ where: { eventId, email } })` — the
lookup-before-insert duplicate check of the create-participant action. -/
def findParticipantByEmail (db : DB) (eventId email : String) : Option ParticipantRow :=
  db.participants.find? (fun p => p.eventId == eventId && p.email == some email)

/-- `prisma.user.findUnique({ where: { email } })` from the login form
strategy. -/
def findUserByEmail (db : DB) (email : String) : Option UserRow :=
  db.users.find? (fun u => u.email == email)

/-- Photos of an event (`prisma.eventPhoto.count({ where: { eventId } })`
counts the length of this list). -/
def eventPhotosOf (db : DB) (eventId : String) : List EventPhotoRow :=
  db.eventPhotos.filter (fun p => p.eventId == eventId)

/-- Participants of an event. -/
def participantsOf (db : DB) (eventId : String) : List ParticipantRow :=
  db.participants.filter (fun p => p.eventId == eventId)

/-- The schema's referential action for a `ConsentLog` row when event
`eventId` and the participants in `deadParticipantIds` are deleted:
`event … onDelete: SetNull` and `participant … onDelete: SetNull`. -/
def consentLogNullRefs (eventId : String) (deadParticipantIds : List String)
    (c : ConsentLogRow) : ConsentLogRow :=
  { c with
    eventId := if c.eventId == some eventId then none else c.eventId,
    participantId :=
      match c.participantId with
      | some pid => if deadParticipantIds.contains pid then none else some pid
      | none => none }

/-- `prisma.event.delete` with the schema's referential actions:
participants, photos and matching tasks cascade (`onDelete: Cascade`);
detected faces and matches cascade with their photo, matches also cascade
with their participant; consent-log references to the deleted event and to
deleted participants are set to null (`onDelete: SetNull`). -/
def deleteEventCascade (db : DB) (eventId : String) : DB :=
  let deadPhotoIds := (db.eventPhotos.filter (fun p => p.eventId == eventId)).map (·.id)
  let deadParticipantIds := (db.participants.filter (fun p => p.eventId == eventId)).map (·.id)
  { db with
    events := db.events.filter (fun e => e.id != eventId),
    participants := db.participants.filter (fun p => p.eventId != eventId),
    eventPhotos := db.eventPhotos.filter (fun p => p.eventId != eventId),
    faceMatchingTasks := db.faceMatchingTasks.filter (fun t => t.eventId != eventId),
    detectedFaces := db.detectedFaces.filter (fun f => !(deadPhotoIds.contains f.photoId)),
    photoParticipantMatches := db.photoParticipantMatches.filter
      (fun m => !(deadPhotoIds.contains m.photoId) && !(deadParticipantIds.contains m.participantId)),
    consentLogs := db.consentLogs.map (consentLogNullRefs eventId deadParticipantIds) }

/-- `prisma.eventPhoto.delete({ where: { id } })` with the schema's
referential actions: detected faces and matches cascade with the photo. -/
def deletePhotoCascade (db : DB) (photoId : String) : DB :=
  { db with
    eventPhotos := db.eventPhotos.filter (fun p => p.id != photoId),
    detectedFaces := db.detectedFaces.filter (fun f => f.photoId != photoId),
    photoParticipantMatches := db.photoParticipantMatches.filter
      (fun m => m.photoId != photoId) }

/-- Deleting a `User` row under the schema's referential actions:
memberships, uploaded photos (with their faces and matches) and consent
logs cascade (`onDelete: Cascade` on `OrganizationUser.user`,
`EventPhoto.uploader` and `ConsentLog.user`); `Participant.userId` is set
to null (`onDelete: SetNull`). -/
def deleteUserCascade (db : DB) (userId : String) : DB :=
  let deadPhotoIds := (db.eventPhotos.filter (fun p => p.uploaderUserId == userId)).map (·.id)
  { db with
    users := db.users.filter (fun u => u.id != userId),
    organizationUsers := db.organizationUsers.filter (fun m => m.userId != userId),
    participants := db.participants.map (fun p =>
      if p.userId == some userId then { p with userId := none } else p),
    eventPhotos := db.eventPhotos.filter (fun p => p.uploaderUserId != userId),
    detectedFaces := db.detectedFaces.filter (fun f => !(deadPhotoIds.contains f.photoId)),
    photoParticipantMatches := db.photoParticipantMatches.filter
      (fun m => !(deadPhotoIds.contains m.photoId)),
    consentLogs := db.consentLogs.filter (fun c => c.userId != userId) }

/-- Deleting a `Participant` row under the schema's referential actions:
matches cascade; consent-log participant references are set to null. -/
def deleteParticipantCascade (db : DB) (participantId : String) : DB :=
  { db with
    participants := db.participants.filter (fun p => p.id != participantId),
    photoParticipantMatches := db.photoParticipantMatches.filter
      (fun m => m.participantId != participantId),
    consentLogs := db.consentLogs.map (fun c =>
      if c.participantId == some participantId then { c with participantId := none } else c) }

/-- A database whose `Event` table no longer holds any row with the given
id, all other tables untouched — the "no event with that id exists at all"
comparison point for existence-leak claims. -/
def eraseEventRow (db : DB) (eventId : String) : DB :=
  { db with events := db.events.filter (fun e => e.id != eventId) }

/-- What a route hands back to the framework: loader data / action json,
redirects, json error bodies, field-error maps, or a thrown `Response`. -/
inductive RouteResult (α : Type) where
  | ok (data : α)
  | redirectTo (path : String)
  | errJson (status : Nat) (message : String)
  | errFields (status : Nat) (fieldErrors : List (String × String))
  | thrownResponse (status : Nat) (body : String)
deriving DecidableEq, Repr

/-- Externally visible step performed by an action, recorded in program
order. -/
inductive Effect where
  | storageUpload (pathHint : String)
  | storageDelete (url : String)
  | lambdaTrigger (eventId : String) (taskId : String)
  | dbCreatePhoto (photoId : String)
  | dbDeletePhoto (photoId : String)
  | dbCreateTask (taskId : String)
  | dbDeleteEvent (eventId : String)
  | dbCreateParticipant (participantId : String)
  | dbUpdateEvent (eventId : String)
deriving DecidableEq, Repr

/-- Result of running an action: the response, the resulting store, and
the ordered effect trace. -/
structure ActionOut (α : Type) where
  result : RouteResult α
  db : DB
  effects : List Effect
deriving DecidableEq, Repr

def notAssociatedMsg : String := "User not associated with an organization"

def eventNotFoundMsg : String := "Event not found or access denied"

def photoNotFoundMsg : String := "Photo not found or access denied."

def noPhotosMsg : String := "Cannot initiate matching without uploaded photos."

def noParticipantsMsg : String := "Cannot initiate matching without added participants."

def duplicateEmailMsg : String := "A participant with this email already exists for this event."

def invalidLoginMsg : String := "Invalid login credentials."

def missingCredentialsMsg : String := "Email and password are required."

def missingPhotoIdMsg : String := "Missing photo ID."

def noFileMsg : String := "No file selected or file is empty."

def invalidIntentMsg : String := "Invalid intent"

def methodNotAllowedMsg : String := "Method not allowed"

/-- Loader payload of the event-detail route: the event with its photos
and participants. -/
structure EventDetailData where
  event : EventRow
  photos : List EventPhotoRow
  participants : List ParticipantRow
deriving DecidableEq, Repr

/-- The event-detail `loader`: membership, org-scoped event resolution
(404 on failure), then the event with its photos and participants. -/
def eventDetailLoader (db : DB) (userId eventId : String) : RouteResult EventDetailData :=
  match findOrgUser db userId with
  | none => .thrownResponse 403 notAssociatedMsg
  | some orgUser =>
    match findEventScoped db eventId orgUser.orgId with
    | none => .thrownResponse 404 eventNotFoundMsg
    | some event =>
      .ok { event := event, photos := eventPhotosOf db eventId,
            participants := participantsOf db eventId }

/-- The participants-index `loader`: membership, org-scoped event check
(404 on failure), then the event's participants. -/
def participantsIndexLoader (db : DB) (userId eventId : String) :
    RouteResult (List ParticipantRow) :=
  match findOrgUser db userId with
  | none => .thrownResponse 403 notAssociatedMsg
  | some orgUser =>
    match findEventScoped db eventId orgUser.orgId with
    | none => .thrownResponse 404 eventNotFoundMsg
    | some _ => .ok (participantsOf db eventId)

/-- The delete-event `action`: method check, membership, org-scoped event
check (404 json on failure), then `prisma.event.delete` (cascade) and a
redirect to the events list. -/
def deleteEventAction (db : DB) (userId eventId method : String) : ActionOut String :=
  if method != "POST" then
    { result := .errJson 405 methodNotAllowedMsg, db := db, effects := [] }
  else
    match findOrgUser db userId with
    | none => { result := .errJson 403 notAssociatedMsg, db := db, effects := [] }
    | some orgUser =>
      match findEventScoped db eventId orgUser.orgId with
      | none => { result := .errJson 404 eventNotFoundMsg, db := db, effects := [] }
      | some _ =>
        { result := .redirectTo ("/org/events"),
          db := deleteEventCascade db eventId,
          effects := [.dbDeleteEvent eventId] }

/-- The multipart file of the upload-photo intent. -/
structure FileUpload where
  name : String
  size : Nat
deriving DecidableEq, Repr

/-- The `intent` form field of the event-detail `action`.  For
`uploadPhoto`, `none` models an absent or non-file form value. -/
inductive EventPageIntent where
  | uploadPhoto (photoFile : Option FileUpload)
  | deletePhoto (photoId : String)
  | initiateFaceMatching
  | other (value : String)
deriving DecidableEq, Repr

/-- The event-detail `action` (upload photo / delete photo / initiate face
matching).  Membership and the org-scoped event check run before the
intent is even read.  `now` is the upload timestamp, `freshPhotoId` and
`freshTaskId` the cuids generated for created rows, `storedUrl` the URL
returned by the storage port's upload. -/
def eventPageAction (db : DB) (userId eventId : String) (intent : EventPageIntent)
    (now : Nat) (freshPhotoId freshTaskId storedUrl : String) : ActionOut String :=
  match findOrgUser db userId with
  | none => { result := .errJson 403 notAssociatedMsg, db := db, effects := [] }
  | some orgUser =>
    match findEventScoped db eventId orgUser.orgId with
    | none => { result := .errJson 404 eventNotFoundMsg, db := db, effects := [] }
    | some _ =>
      match intent with
      | .uploadPhoto photoFile =>
        match photoFile with
        | none => { result := .errJson 400 noFileMsg, db := db, effects := [] }
        | some file =>
          if file.size == 0 then
            { result := .errJson 400 noFileMsg, db := db, effects := [] }
          else
            let newPhoto : EventPhotoRow :=
              { id := freshPhotoId, eventId := eventId, uploaderUserId := userId,
                imageUrl := storedUrl, thumbnailUrl := none, uploadTime := now,
                reviewStatus := .PENDING, isPublic := false }
            { result := .ok (file.name ++ " uploaded successfully."),
              db := { db with eventPhotos := newPhoto :: db.eventPhotos },
              effects := [.storageUpload ("events/" ++ eventId ++ "/photos"),
                          .dbCreatePhoto freshPhotoId] }
      | .deletePhoto photoId =>
        if photoId == "" then
          { result := .errJson 400 missingPhotoIdMsg, db := db, effects := [] }
        else
          match findPhotoScoped db photoId eventId with
          | none => { result := .errJson 404 photoNotFoundMsg, db := db, effects := [] }
          | some photo =>
            { result := .ok ("Photo deleted successfully."),
              db := deletePhotoCascade db photoId,
              effects := [.dbDeletePhoto photoId, .storageDelete photo.imageUrl] }
      | .initiateFaceMatching =>
        if (eventPhotosOf db eventId).length == 0 then
          { result := .errJson 400 noPhotosMsg, db := db, effects := [] }
        else if (participantsOf db eventId).length == 0 then
          { result := .errJson 400 noParticipantsMsg, db := db, effects := [] }
        else
          let newTask : FaceMatchingTaskRow :=
            { id := freshTaskId, eventId := eventId, status := .PENDING,
              awsRequestId := none, errorDetails := none }
          { result := .ok ("Face matching process initiated successfully."),
            db := { db with faceMatchingTasks := newTask :: db.faceMatchingTasks },
            effects := [.dbCreateTask freshTaskId, .lambdaTrigger eventId freshTaskId] }
      | .other _ =>
        { result := .errJson 400 invalidIntentMsg, db := db, effects := [] }

/-- The new-participant form: the creation interface accepts only a name
and an e-mail (the `ParticipantSchema` zod object has exactly these two
fields). -/
structure ParticipantForm where
  name : Option String
  email : Option String
deriving DecidableEq, Repr

/-- `ParticipantSchema.safeParse`: name must be a present non-empty
string, email must be present and pass the zod e-mail format check
(`emailValid`, treated as an opaque predicate). -/
def parseParticipantForm (emailValid : String → Bool) (form : ParticipantForm) :
    Except (List (String × String)) (String × String) :=
  match form.name, form.email with
  | none, none => .error [(("name"), ("Required")), (("email"), ("Required"))]
  | none, some e =>
    .error ([(("name"), ("Required"))] ++
      (if emailValid e then [] else [(("email"), ("Invalid email format"))]))
  | some n, none =>
    .error ((if n.isEmpty then [(("name"), ("Name is required"))] else []) ++
      [(("email"), ("Required"))])
  | some n, some e =>
    if n.isEmpty || !emailValid e then
      .error ((if n.isEmpty then [(("name"), ("Name is required"))] else []) ++
        (if emailValid e then [] else [(("email"), ("Invalid email format"))]))
    else .ok (n, e)

/-- The create-participant `action`: membership, org-scoped event check
(404 field error on failure), zod validation, lookup-before-insert
duplicate-email check, then the insert with defaulted
`registrationStatus`/`consentStatus` and a redirect. -/
def createParticipantAction (emailValid : String → Bool) (db : DB)
    (userId eventId freshParticipantId : String) (form : ParticipantForm) :
    ActionOut String :=
  match findOrgUser db userId with
  | none =>
    { result := .errFields 403 [(("form"), notAssociatedMsg)], db := db, effects := [] }
  | some orgUser =>
    match findEventScoped db eventId orgUser.orgId with
    | none =>
      { result := .errFields 404 [(("form"), eventNotFoundMsg)], db := db, effects := [] }
    | some _ =>
      match parseParticipantForm emailValid form with
      | .error errs => { result := .errFields 400 errs, db := db, effects := [] }
      | .ok (n, e) =>
        match findParticipantByEmail db eventId e with
        | some _ =>
          { result := .errFields 400 [(("email"), duplicateEmailMsg)],
            db := db, effects := [] }
        | none =>
          let newParticipant : ParticipantRow :=
            { id := freshParticipantId, eventId := eventId, userId := none,
              name := some n, email := some e,
              registrationStatus := some ("Invited"), consentStatus := false,
              referencePhotoUrl := none }
          { result := .redirectTo ("/org/events/" ++ eventId ++ "/participants"),
            db := { db with participants := newParticipant :: db.participants },
            effects := [.dbCreateParticipant freshParticipantId] }

/-- A raw `prisma.participant.create`: the schema declares no uniqueness
constraint on `(eventId, email)` (only an index on `email`), so the store
itself rejects only a duplicate primary key. -/
def insertParticipantRow (db : DB) (row : ParticipantRow) : Except String DB :=
  if db.participants.any (fun p => p.id == row.id) then
    .error ("UNIQUE constraint failed: Participant.id")
  else .ok { db with participants := row :: db.participants }

/-- A raw `prisma.photoParticipantMatch.create`: the schema declares
`@@unique([photoId, participantId])` besides the `@id` key, so the store
rejects a second row for an already-matched pair. -/
def insertPhotoParticipantMatch (db : DB) (row : PhotoParticipantMatchRow) :
    Except String DB :=
  if db.photoParticipantMatches.any (fun m => m.id == row.id) then
    .error ("UNIQUE constraint failed: PhotoParticipantMatch.id")
  else if db.photoParticipantMatches.any
      (fun m => m.photoId == row.photoId && m.participantId == row.participantId) then
    .error ("UNIQUE constraint failed: PhotoParticipantMatch.photoId, PhotoParticipantMatch.participantId")
  else .ok { db with photoParticipantMatches := row :: db.photoParticipantMatches }

/-- The edit-event form as submitted (every value a raw form string;
`none` = key absent from the submission; an unchecked checkbox submits
nothing, a checked one submits `on`). -/
structure EventForm where
  name : Option String
  dateStart : Option String
  dateEnd : Option String
  description : Option String
  locationName : Option String
  locationAddress : Option String
  status : Option String
  isPublic : Option String
deriving DecidableEq, Repr

/-- `z.nativeEnum(EventStatus)` parsing. -/
def parseEventStatus (s : String) : Option EventStatus :=
  if s == "DRAFT" then some .DRAFT
  else if s == "UPCOMING" then some .UPCOMING
  else if s == "ACTIVE" then some .ACTIVE
  else if s == "COMPLETED" then some .COMPLETED
  else if s == "ARCHIVED" then some .ARCHIVED
  else none

/-- Output of a successful `EventSchema.safeParse`: present fields carry
their submitted strings, absent optional fields stay `undefined`
(`none`). -/
structure ParsedEventForm where
  name : String
  dateStart : String
  dateEnd : Option String
  description : Option String
  locationName : Option String
  locationAddress : Option String
  status : EventStatus
  isPublic : Bool
deriving DecidableEq, Repr

/-- The per-field errors `EventSchema.safeParse` would report, in schema
field order.  `parseDate` is the environment's `Date.parse` (`none` for
`NaN`). -/
def eventFormFieldErrors (parseDate : String → Option Nat) (form : EventForm) :
    List (String × String) :=
  (match form.name with
   | none => [(("name"), ("Required"))]
   | some n => if n.isEmpty then [(("name"), ("Event name is required"))] else []) ++
  (match form.dateStart with
   | none => [(("dateStart"), ("Required"))]
   | some s => if (parseDate s).isSome then [] else [(("dateStart"), ("Invalid start date"))]) ++
  (match form.dateEnd with
   | none => []
   | some s =>
     if s.isEmpty || (parseDate s).isSome then [] else [(("dateEnd"), ("Invalid end date"))]) ++
  (match form.status with
   | none => [(("status"), ("Required"))]
   | some s => if (parseEventStatus s).isSome then [] else [(("status"), ("Invalid enum value"))])

/-- `EventSchema.safeParse` on the edit form.  `isPublic` is preprocessed
to `true` exactly when the submitted value is `on`. -/
def parseEventForm (parseDate : String → Option Nat) (form : EventForm) :
    Except (List (String × String)) ParsedEventForm :=
  let errs := eventFormFieldErrors parseDate form
  match form.name, form.dateStart, form.status with
  | some n, some ds, some st =>
    match parseEventStatus st with
    | some status =>
      if errs.isEmpty then
        .ok { name := n, dateStart := ds, dateEnd := form.dateEnd,
              description := form.description, locationName := form.locationName,
              locationAddress := form.locationAddress, status := status,
              isPublic := (form.isPublic == some ("on")) }
      else .error errs
    | none => .error errs
  | _, _, _ => .error errs

/-- The `data` object of the edit action's `prisma.event.update`, applied
to the stored row.  `dateEnd` follows the action's JS truthiness test
(`result.data.dateEnd ? new Date(result.data.dateEnd) : null`), so absence
and the empty string both clear it.  For `description`, `locationName` and
`locationAddress` a `none` (JS `undefined`) reaches Prisma, which skips
the column — the stored value is left unchanged. -/
def applyEventUpdate (parseDate : String → Option Nat) (e : EventRow)
    (d : ParsedEventForm) : EventRow :=
  { e with
    name := d.name,
    dateStart := (parseDate d.dateStart).getD 0,
    dateEnd :=
      match d.dateEnd with
      | some s => if s.isEmpty then none else parseDate s
      | none => none,
    description :=
      match d.description with
      | some s => some s
      | none => e.description,
    locationName :=
      match d.locationName with
      | some s => some s
      | none => e.locationName,
    locationAddress :=
      match d.locationAddress with
      | some s => some s
      | none => e.locationAddress,
    status := d.status,
    isPublic := d.isPublic }

/-- The edit-event `action`: membership, zod validation (before the event
check), org-scoped event check (thrown 404 on failure), then
`prisma.event.update` on the row with the given id and a redirect. -/
def editEventAction (parseDate : String → Option Nat) (db : DB)
    (userId eventId : String) (form : EventForm) : ActionOut String :=
  match findOrgUser db userId with
  | none =>
    { result := .errFields 403 [(("form"), notAssociatedMsg)], db := db, effects := [] }
  | some orgUser =>
    match parseEventForm parseDate form with
    | .error errs => { result := .errFields 400 errs, db := db, effects := [] }
    | .ok d =>
      match findEventScoped db eventId orgUser.orgId with
      | none => { result := .thrownResponse 404 eventNotFoundMsg, db := db, effects := [] }
      | some _ =>
        { result := .redirectTo ("/org/events/" ++ eventId),
          db := { db with events := db.events.map (fun e =>
            if e.id == eventId then applyEventUpdate parseDate e d else e) },
          effects := [.dbUpdateEvent eventId] }

/-- The authenticated user object the login strategy stores in the session
(the password hash is stripped). -/
structure SessionUser where
  id : String
  email : String
  name : Option String
  role : Role
deriving DecidableEq, Repr

/-- The `FormStrategy` verifier of the authenticator: required-fields
check, user lookup by e-mail, bcrypt comparison (`bcryptCompare`, treated
as an opaque capability), with one generic failure message for both the
unknown-e-mail and the wrong-password case. -/
def formStrategyVerify (bcryptCompare : String → String → Bool) (db : DB)
    (email password : String) : Except String SessionUser :=
  if email == "" || password == "" then .error missingCredentialsMsg
  else
    match findUserByEmail db email with
    | none => .error invalidLoginMsg
    | some user =>
      if bcryptCompare password user.passwordHash then
        .ok { id := user.id, email := user.email, name := user.name, role := user.role }
      else .error invalidLoginMsg

/-- A list of rows has unique keys when equal keys force equal rows (the
semantics of a Prisma `@id` / `@unique` column). -/
def uniqueKeys {α : Type} (l : List α) (key : α → String) : Prop :=
  ∀ a ∈ l, ∀ b ∈ l, key a = key b → a = b

instance {α : Type} [DecidableEq α] (l : List α) (key : α → String) :
    Decidable (uniqueKeys l key) := by
  unfold uniqueKeys; infer_instance

/-- At most one `PhotoParticipantMatch` row per `(photoId, participantId)`
pair — the `@@unique([photoId, participantId])` invariant. -/
def matchPairUnique (db : DB) : Prop :=
  db.photoParticipantMatches.Pairwise
    (fun a b => ¬(a.photoId = b.photoId ∧ a.participantId = b.participantId))

instance (db : DB) : Decidable (matchPairUnique db) := by
  unfold matchPairUnique; infer_instance

/-- `sub` occurs as a contiguous substring of `s` (checked on the
character lists, so it evaluates in the kernel). -/
def strMentions (s sub : String) : Bool :=
  go s.data sub.data
where
  go : List Char → List Char → Bool
  | l, sub =>
    match l with
    | [] => sub.isEmpty
    | _ :: t => sub.isPrefixOf l || go t sub

/-! ## Helper lemmas -/

/-- Org-scoped event resolution fails when the sole event carrying the
requested id belongs to a different organization. -/
theorem findEventScoped_none_of_cross (db : DB) (E : EventRow) (oid : String)
    (hE : E ∈ db.events) (hUnique : uniqueKeys db.events (fun e => e.id))
    (hne : E.orgId ≠ oid) :
    findEventScoped db E.id oid = none := by
  apply List.find?_eq_none.mpr
  intro e he
  simp only [Bool.and_eq_true, beq_iff_eq, not_and]
  intro hid horg
  have heE : e = E := hUnique e he E hE hid
  rw [heE] at horg
  exact hne horg

/-- Org-scoped event resolution fails on a store whose event row with that
id has been erased. -/
theorem findEventScoped_erase (db : DB) (eventId oid : String) :
    findEventScoped (eraseEventRow db eventId) eventId oid = none := by
  simp only [findEventScoped, eraseEventRow]
  apply List.find?_eq_none.mpr
  intro e he
  have hmem := List.mem_filter.mp he
  simp only [bne_iff_ne, ne_eq, decide_eq_true_eq] at hmem
  simp only [Bool.and_eq_true, beq_iff_eq, not_and]
  intro hid _
  exact hmem.2 hid

/-! ## C1 — cross-tenant access is NotFound, indistinguishable from absence -/

/-- C1: for an event `E` of organization `O` and an authenticated user
whose memberships all resolve to a different organization, every operation
addressed by `E.id` — event-detail read, participant listing, event
delete, photo upload, photo delete, face-matching initiation, participant
creation, event update — fails with a 404 NotFound, mutates nothing, and
its response is the very response produced when no event with that id
exists in the store at all. -/
theorem crossTenant_allOps_notFound
    (db : DB) (u : String) (m : OrganizationUserRow) (E : EventRow)
    (hm : findOrgUser db u = some m)
    (hE : E ∈ db.events) (hOrg : E.orgId ≠ m.orgId)
    (hUnique : uniqueKeys db.events (fun e => e.id)) :
    (eventDetailLoader db u E.id = .thrownResponse 404 eventNotFoundMsg ∧
     eventDetailLoader db u E.id = eventDetailLoader (eraseEventRow db E.id) u E.id) ∧
    (participantsIndexLoader db u E.id = .thrownResponse 404 eventNotFoundMsg ∧
     participantsIndexLoader db u E.id =
       participantsIndexLoader (eraseEventRow db E.id) u E.id) ∧
    (deleteEventAction db u E.id ("POST") =
       { result := .errJson 404 eventNotFoundMsg, db := db, effects := [] } ∧
     ∀ method,
       (deleteEventAction db u E.id method).result =
         (deleteEventAction (eraseEventRow db E.id) u E.id method).result ∧
       (deleteEventAction db u E.id method).effects =
         (deleteEventAction (eraseEventRow db E.id) u E.id method).effects ∧
       (deleteEventAction db u E.id method).db = db) ∧
    (∀ intent now fp ft su,
       eventPageAction db u E.id intent now fp ft su =
         { result := .errJson 404 eventNotFoundMsg, db := db, effects := [] } ∧
       (eventPageAction db u E.id intent now fp ft su).result =
         (eventPageAction (eraseEventRow db E.id) u E.id intent now fp ft su).result) ∧
    (∀ emailValid fid form,
       createParticipantAction emailValid db u E.id fid form =
         { result := .errFields 404 [(("form"), eventNotFoundMsg)], db := db,
           effects := [] } ∧
       (createParticipantAction emailValid db u E.id fid form).result =
         (createParticipantAction emailValid (eraseEventRow db E.id) u E.id fid form).result) ∧
    (∀ parseDate form d, parseEventForm parseDate form = .ok d →
       editEventAction parseDate db u E.id form =
         { result := .thrownResponse 404 eventNotFoundMsg, db := db, effects := [] }) ∧
    (∀ parseDate form,
       (editEventAction parseDate db u E.id form).result =
         (editEventAction parseDate (eraseEventRow db E.id) u E.id form).result ∧
       (editEventAction parseDate db u E.id form).db = db) := by
  have hev : findEventScoped db E.id m.orgId = none :=
    findEventScoped_none_of_cross db E m.orgId hE hUnique hOrg
  have hev2 : findEventScoped (eraseEventRow db E.id) E.id m.orgId = none :=
    findEventScoped_erase db E.id m.orgId
  have hm2 : findOrgUser (eraseEventRow db E.id) u = some m := hm
  refine ⟨⟨?_, ?_⟩, ⟨?_, ?_⟩, ⟨?_, ?_⟩, ?_, ?_, ?_, ?_⟩
  · simp only [eventDetailLoader, hm, hev]
  · simp only [eventDetailLoader, hm, hev, hm2, hev2]
  · simp only [participantsIndexLoader, hm, hev]
  · simp only [participantsIndexLoader, hm, hev, hm2, hev2]
  · simp only [deleteEventAction, hm, hev, bne_self_eq_false, Bool.false_eq_true,
      if_false, ite_false]
  · intro method
    by_cases hme : (method != "POST") = true
    · simp only [deleteEventAction, hme, if_true, ite_true]
      refine ⟨?_, ?_, ?_⟩ <;> trivial
    · simp only [Bool.not_eq_true] at hme
      simp only [deleteEventAction, hme, Bool.false_eq_true, if_false, ite_false,
        hm, hev, hm2, hev2]
      refine ⟨?_, ?_, ?_⟩ <;> trivial
  · intro intent now fp ft su
    simp only [eventPageAction, hm, hev, hm2, hev2]
    refine ⟨?_, ?_⟩ <;> trivial
  · intro emailValid fid form
    simp only [createParticipantAction, hm, hev, hm2, hev2]
    refine ⟨?_, ?_⟩ <;> trivial
  · intro parseDate form d hparse
    simp only [editEventAction, hm, hparse, hev]
  · intro parseDate form
    cases hparse : parseEventForm parseDate form with
    | error errs =>
      simp only [editEventAction, hm, hm2, hparse]
      refine ⟨?_, ?_⟩ <;> trivial
    | ok d =>
      simp only [editEventAction, hm, hm2, hparse, hev, hev2]
      refine ⟨?_, ?_⟩ <;> trivial

/-- Fixture: the sole membership of user `u2` is to organization `o2`. -/
def exOrgUser2 : OrganizationUserRow := { id := "m2", userId := "u2", orgId := "o2" }

/-- Fixture: an event of organization `o1`. -/
def exEventC1 : EventRow :=
  { id := "e1", orgId := "o1", categoryId := none, name := "Spring Gala",
    dateStart := 0, dateEnd := none, status := .DRAFT, description := none,
    locationName := none, locationAddress := none, isPublic := false }

/-- Fixture: a store holding `o1`'s event and `u2`'s membership to `o2`. -/
def exDbC1 : DB :=
  { users := [], organizationUsers := [exOrgUser2], events := [exEventC1],
    participants := [], eventPhotos := [], detectedFaces := [],
    photoParticipantMatches := [], faceMatchingTasks := [], consentLogs := [] }

/-- Witness for C1 at a concrete cross-tenant store. -/
theorem crossTenant_allOps_notFound_witness :
    eventDetailLoader exDbC1 ("u2") ("e1") =
      RouteResult.thrownResponse 404 eventNotFoundMsg ∧
    deleteEventAction exDbC1 ("u2") ("e1") ("POST") =
      { result := RouteResult.errJson 404 eventNotFoundMsg, db := exDbC1,
        effects := [] } := by
  have h := crossTenant_allOps_notFound exDbC1 ("u2") exOrgUser2 exEventC1
    (by decide) (by decide) (by decide) (by decide)
  exact ⟨h.1.1, h.2.2.1.1⟩

/-! ## C2 — event deletion cascades the whole subtree, null-refs the audit log -/

theorem deleteEventCascade_events (db : DB) (eid : String) :
    (deleteEventCascade db eid).events = db.events.filter (fun e => e.id != eid) := rfl

theorem deleteEventCascade_participants (db : DB) (eid : String) :
    (deleteEventCascade db eid).participants =
      db.participants.filter (fun p => p.eventId != eid) := rfl

theorem deleteEventCascade_eventPhotos (db : DB) (eid : String) :
    (deleteEventCascade db eid).eventPhotos =
      db.eventPhotos.filter (fun p => p.eventId != eid) := rfl

theorem deleteEventCascade_faceMatchingTasks (db : DB) (eid : String) :
    (deleteEventCascade db eid).faceMatchingTasks =
      db.faceMatchingTasks.filter (fun t => t.eventId != eid) := rfl

theorem deleteEventCascade_detectedFaces (db : DB) (eid : String) :
    (deleteEventCascade db eid).detectedFaces =
      db.detectedFaces.filter (fun f =>
        !(((db.eventPhotos.filter (fun p => p.eventId == eid)).map (fun p => p.id)).contains
            f.photoId)) := rfl

theorem deleteEventCascade_matches (db : DB) (eid : String) :
    (deleteEventCascade db eid).photoParticipantMatches =
      db.photoParticipantMatches.filter (fun m =>
        !(((db.eventPhotos.filter (fun p => p.eventId == eid)).map (fun p => p.id)).contains
            m.photoId) &&
        !(((db.participants.filter (fun p => p.eventId == eid)).map (fun p => p.id)).contains
            m.participantId)) := rfl

theorem deleteEventCascade_consentLogs (db : DB) (eid : String) :
    (deleteEventCascade db eid).consentLogs =
      db.consentLogs.map (consentLogNullRefs eid
        ((db.participants.filter (fun p => p.eventId == eid)).map (fun p => p.id))) := rfl

theorem consentLogNullRefs_eventId (eid : String) (dead : List String) (c : ConsentLogRow) :
    (consentLogNullRefs eid dead c).eventId =
      if c.eventId == some eid then none else c.eventId := rfl

/-- C2: a delete-event request that passes the tenancy guard redirects to
the events list and rewrites the store with the schema's cascade: no
event, participant, photo or matching-task row with the deleted event id
survives, no detected-face or match row of a deleted photo (or of a
deleted participant) survives, and every `ConsentLog` row survives — the
whole audit table is just re-mapped — with any reference to the deleted
event set to null. -/
theorem deleteEvent_cascade_spec
    (db : DB) (u eid : String) (m : OrganizationUserRow) (E0 : EventRow)
    (hm : findOrgUser db u = some m)
    (hev : findEventScoped db eid m.orgId = some E0) :
    deleteEventAction db u eid ("POST") =
      { result := .redirectTo ("/org/events"),
        db := deleteEventCascade db eid,
        effects := [.dbDeleteEvent eid] } ∧
    (∀ e ∈ (deleteEventCascade db eid).events, e.id ≠ eid) ∧
    (∀ p ∈ (deleteEventCascade db eid).participants, p.eventId ≠ eid) ∧
    (∀ ph ∈ (deleteEventCascade db eid).eventPhotos, ph.eventId ≠ eid) ∧
    (∀ t ∈ (deleteEventCascade db eid).faceMatchingTasks, t.eventId ≠ eid) ∧
    (∀ f ∈ (deleteEventCascade db eid).detectedFaces,
       ∀ ph ∈ db.eventPhotos, ph.eventId = eid → f.photoId ≠ ph.id) ∧
    (∀ mt ∈ (deleteEventCascade db eid).photoParticipantMatches,
       (∀ ph ∈ db.eventPhotos, ph.eventId = eid → mt.photoId ≠ ph.id) ∧
       (∀ p ∈ db.participants, p.eventId = eid → mt.participantId ≠ p.id)) ∧
    (deleteEventCascade db eid).consentLogs =
      db.consentLogs.map (consentLogNullRefs eid
        ((db.participants.filter (fun p => p.eventId == eid)).map (fun p => p.id))) ∧
    (deleteEventCascade db eid).consentLogs.length = db.consentLogs.length ∧
    (∀ c ∈ (deleteEventCascade db eid).consentLogs, c.eventId ≠ some eid) := by
  refine ⟨?_, ?_, ?_, ?_, ?_, ?_, ?_, ?_, ?_, ?_⟩
  · simp only [deleteEventAction, bne_self_eq_false, Bool.false_eq_true, if_false,
      ite_false, hm, hev]
  · intro e he
    rw [deleteEventCascade_events] at he
    have h := (List.mem_filter.mp he).2
    simpa [bne_iff_ne] using h
  · intro p hp
    rw [deleteEventCascade_participants] at hp
    have h := (List.mem_filter.mp hp).2
    simpa [bne_iff_ne] using h
  · intro ph hph
    rw [deleteEventCascade_eventPhotos] at hph
    have h := (List.mem_filter.mp hph).2
    simpa [bne_iff_ne] using h
  · intro t ht
    rw [deleteEventCascade_faceMatchingTasks] at ht
    have h := (List.mem_filter.mp ht).2
    simpa [bne_iff_ne] using h
  · intro f hf ph hph hev2 heq
    rw [deleteEventCascade_detectedFaces] at hf
    have h := (List.mem_filter.mp hf).2
    rw [Bool.not_eq_true'] at h
    have hmem : f.photoId ∈ (db.eventPhotos.filter (fun p => p.eventId == eid)).map
        (fun p => p.id) :=
      List.mem_map.mpr ⟨ph, List.mem_filter.mpr ⟨hph, by simp [hev2]⟩, heq.symm⟩
    have htrue : (((db.eventPhotos.filter (fun p => p.eventId == eid)).map
        (fun p => p.id)).contains f.photoId) = true := List.elem_eq_true_of_mem hmem
    rw [htrue] at h
    exact Bool.noConfusion h
  · intro mt hmt
    rw [deleteEventCascade_matches] at hmt
    have h := (List.mem_filter.mp hmt).2
    rw [Bool.and_eq_true, Bool.not_eq_true', Bool.not_eq_true'] at h
    constructor
    · intro ph hph hev2 heq
      have hmem : mt.photoId ∈ (db.eventPhotos.filter (fun p => p.eventId == eid)).map
          (fun p => p.id) :=
        List.mem_map.mpr ⟨ph, List.mem_filter.mpr ⟨hph, by simp [hev2]⟩, heq.symm⟩
      have htrue : (((db.eventPhotos.filter (fun p => p.eventId == eid)).map
          (fun p => p.id)).contains mt.photoId) = true := List.elem_eq_true_of_mem hmem
      rw [htrue] at h
      exact Bool.noConfusion h.1
    · intro p hp hev2 heq
      have hmem : mt.participantId ∈ (db.participants.filter (fun p => p.eventId == eid)).map
          (fun p => p.id) :=
        List.mem_map.mpr ⟨p, List.mem_filter.mpr ⟨hp, by simp [hev2]⟩, heq.symm⟩
      have htrue : (((db.participants.filter (fun p => p.eventId == eid)).map
          (fun p => p.id)).contains mt.participantId) = true := List.elem_eq_true_of_mem hmem
      rw [htrue] at h
      exact Bool.noConfusion h.2
  · exact deleteEventCascade_consentLogs db eid
  · rw [deleteEventCascade_consentLogs, List.length_map]
  · intro c hc
    rw [deleteEventCascade_consentLogs] at hc
    obtain ⟨c0, _, rfl⟩ := List.mem_map.mp hc
    rw [consentLogNullRefs_eventId]
    by_cases h : (c0.eventId == some eid) = true
    · simp [h]
    · rw [Bool.not_eq_true] at h
      simp only [h, Bool.false_eq_true, if_false, ite_false]
      intro hcontra
      rw [hcontra] at h
      simp at h

/-- Fixture: membership of user `u1` in organization `o1`. -/
def exOrgUser1 : OrganizationUserRow := { id := "m1", userId := "u1", orgId := "o1" }

/-- Fixture: an active event of organization `o1`. -/
def exEventC2 : EventRow :=
  { id := "e1", orgId := "o1", categoryId := none, name := "Gala",
    dateStart := 10, dateEnd := none, status := .ACTIVE, description := none,
    locationName := none, locationAddress := none, isPublic := false }

/-- Fixture: a store where event `e1` owns one participant, one photo (with
a detected face and a match), one matching task, and is referenced by one of
two consent logs. -/
def exDbC2 : DB :=
  { users := [],
    organizationUsers := [exOrgUser1],
    events := [exEventC2],
    participants := [{ id := "p1", eventId := "e1", userId := none,
                       name := some ("Ann"), email := some ("ann@example.com"),
                       registrationStatus := some ("Invited"), consentStatus := false,
                       referencePhotoUrl := none }],
    eventPhotos := [{ id := "ph1", eventId := "e1", uploaderUserId := "u1",
                      imageUrl := "/stored/ph1", thumbnailUrl := none, uploadTime := 5,
                      reviewStatus := .PENDING, isPublic := false }],
    detectedFaces := [{ id := "f1", photoId := "ph1" }],
    photoParticipantMatches := [{ id := "mt1", photoId := "ph1", participantId := "p1" }],
    faceMatchingTasks := [{ id := "t1", eventId := "e1", status := .PENDING,
                            awsRequestId := none, errorDetails := none }],
    consentLogs := [{ id := "c1", userId := "u1", eventId := some ("e1"),
                      participantId := some ("p1"), type := .PHOTO_STORAGE,
                      status := .GRANTED, details := none },
                    { id := "c2", userId := "u1", eventId := none,
                      participantId := none, type := .DATA_SHARING,
                      status := .REVOKED, details := none }] }

/-- Witness for C2 at a concrete store with a full event subtree. -/
theorem deleteEvent_cascade_spec_witness :
    deleteEventAction exDbC2 ("u1") ("e1") ("POST") =
      { result := RouteResult.redirectTo ("/org/events"),
        db := deleteEventCascade exDbC2 ("e1"),
        effects := [Effect.dbDeleteEvent ("e1")] } ∧
    (deleteEventCascade exDbC2 ("e1")).consentLogs.length = exDbC2.consentLogs.length := by
  have h := deleteEvent_cascade_spec exDbC2 ("u1") ("e1") exOrgUser1 exEventC2
    (by decide) (by decide)
  exact ⟨h.1, h.2.2.2.2.2.2.2.2.1⟩

/-! ## C3 — audit-row survival (corrected: `ConsentLog.user` is Cascade) -/

/-- Fixture: a store with one user described by one consent log. -/
def exDbC3 : DB :=
  { users := [{ id := "u1", email := "ann@example.com", passwordHash := "h1",
                name := none, role := .INDIVIDUAL_USER }],
    organizationUsers := [], events := [], participants := [], eventPhotos := [],
    detectedFaces := [], photoParticipantMatches := [], faceMatchingTasks := [],
    consentLogs := [{ id := "c1", userId := "u1", eventId := none,
                      participantId := none, type := .PHOTO_STORAGE,
                      status := .GRANTED, details := none }] }

/-- C3 counterexample: the schema declares `onDelete: Cascade` on
`ConsentLog.user`, so deleting the user that a consent log describes
deletes the log itself — it does not survive with a nulled reference. -/
theorem consentLog_deletedWithUser_counterexample :
    exDbC3.consentLogs.length = 1 ∧
    (deleteUserCascade exDbC3 ("u1")).consentLogs = [] := by
  constructor <;> decide

/-- C3 amended: deleting an Event or a Participant never deletes a
`ConsentLog` row — the audit table keeps its length and the foreign
reference to the deleted entity is set to null — but deleting a User
cascade-deletes exactly that user's consent logs (the schema's
`onDelete: Cascade` on `ConsentLog.user`). -/
theorem consentLog_survival_amended (db : DB) (eid pid uid : String) :
    (deleteEventCascade db eid).consentLogs.length = db.consentLogs.length ∧
    (∀ c ∈ (deleteEventCascade db eid).consentLogs, c.eventId ≠ some eid) ∧
    (deleteParticipantCascade db pid).consentLogs.length = db.consentLogs.length ∧
    (∀ c ∈ (deleteParticipantCascade db pid).consentLogs, c.participantId ≠ some pid) ∧
    (deleteUserCascade db uid).consentLogs =
      db.consentLogs.filter (fun c => c.userId != uid) := by
  refine ⟨?_, ?_, ?_, ?_, rfl⟩
  · rw [deleteEventCascade_consentLogs, List.length_map]
  · intro c hc
    rw [deleteEventCascade_consentLogs] at hc
    obtain ⟨c0, _, rfl⟩ := List.mem_map.mp hc
    rw [consentLogNullRefs_eventId]
    by_cases h : (c0.eventId == some eid) = true
    · simp [h]
    · rw [Bool.not_eq_true] at h
      simp only [h, Bool.false_eq_true, if_false, ite_false]
      intro hcontra
      rw [hcontra] at h
      simp at h
  · show (db.consentLogs.map _).length = _
    rw [List.length_map]
  · intro c hc
    obtain ⟨c0, _, rfl⟩ := List.mem_map.mp hc
    by_cases h : (c0.participantId == some pid) = true
    · simp [h]
    · rw [Bool.not_eq_true] at h
      simp only [h, Bool.false_eq_true, if_false, ite_false]
      intro hcontra
      rw [hcontra] at h
      simp at h

/-- Witness for the amended C3 at the concrete stores above. -/
theorem consentLog_survival_amended_witness :
    (deleteEventCascade exDbC3 ("e9")).consentLogs.length = exDbC3.consentLogs.length ∧
    (deleteUserCascade exDbC3 ("u1")).consentLogs =
      exDbC3.consentLogs.filter (fun c => c.userId != "u1") :=
  ⟨(consentLog_survival_amended exDbC3 ("e9") ("p9") ("u1")).1,
   (consentLog_survival_amended exDbC3 ("e9") ("p9") ("u1")).2.2.2.2⟩

/-! ## C4 — face-matching preconditions and trigger -/

/-- C4: with the tenancy guard satisfied, initiating face matching on an
event with zero photos fails with the photos precondition message
(checked first: this branch fires whatever the participant count is);
with photos but zero participants it fails with the participants message;
with at least one of each it creates exactly one PENDING
`FaceMatchingTask` row and invokes the compute-trigger port exactly once
with the event id and the new task id. -/
theorem initiateFaceMatching_preconditions_spec
    (db : DB) (u eid : String) (m : OrganizationUserRow) (E0 : EventRow)
    (hm : findOrgUser db u = some m)
    (hev : findEventScoped db eid m.orgId = some E0)
    (now : Nat) (fp ft su : String) :
    (eventPhotosOf db eid = [] →
       eventPageAction db u eid .initiateFaceMatching now fp ft su =
         { result := .errJson 400 noPhotosMsg, db := db, effects := [] } ∧
       strMentions noPhotosMsg ("photos") = true) ∧
    (eventPhotosOf db eid ≠ [] → participantsOf db eid = [] →
       eventPageAction db u eid .initiateFaceMatching now fp ft su =
         { result := .errJson 400 noParticipantsMsg, db := db, effects := [] } ∧
       strMentions noParticipantsMsg ("participants") = true) ∧
    (eventPhotosOf db eid ≠ [] → participantsOf db eid ≠ [] →
       eventPageAction db u eid .initiateFaceMatching now fp ft su =
         { result := .ok ("Face matching process initiated successfully."),
           db := { db with faceMatchingTasks :=
             { id := ft, eventId := eid, status := .PENDING,
               awsRequestId := none, errorDetails := none } :: db.faceMatchingTasks },
           effects := [.dbCreateTask ft, .lambdaTrigger eid ft] } ∧
       (eventPageAction db u eid .initiateFaceMatching now fp ft su).effects.count
         (Effect.lambdaTrigger eid ft) = 1) := by
  refine ⟨?_, ?_, ?_⟩
  · intro hph
    refine ⟨?_, by decide⟩
    simp only [eventPageAction, hm, hev, hph, List.length_nil, Nat.zero_eq,
      beq_self_eq_true, if_true, ite_true]
  · intro hph hpa
    have h1 : ((eventPhotosOf db eid).length == 0) = false := by
      simp only [beq_eq_false_iff_ne, ne_eq, List.length_eq_zero]
      exact hph
    refine ⟨?_, by decide⟩
    simp only [eventPageAction, hm, hev, h1, hpa, List.length_nil, Nat.zero_eq,
      beq_self_eq_true, Bool.false_eq_true, if_false, if_true, ite_false, ite_true]
  · intro hph hpa
    have h1 : ((eventPhotosOf db eid).length == 0) = false := by
      simp only [beq_eq_false_iff_ne, ne_eq, List.length_eq_zero]
      exact hph
    have h2 : ((participantsOf db eid).length == 0) = false := by
      simp only [beq_eq_false_iff_ne, ne_eq, List.length_eq_zero]
      exact hpa
    have hact : eventPageAction db u eid .initiateFaceMatching now fp ft su =
        { result := .ok ("Face matching process initiated successfully."),
          db := { db with faceMatchingTasks :=
            { id := ft, eventId := eid, status := .PENDING,
              awsRequestId := none, errorDetails := none } :: db.faceMatchingTasks },
          effects := [.dbCreateTask ft, .lambdaTrigger eid ft] } := by
      simp only [eventPageAction, hm, hev, h1, h2, Bool.false_eq_true, if_false, ite_false]
    refine ⟨hact, ?_⟩
    rw [hact]
    simp [List.count_cons, beq_iff_eq]

/-- Fixture: a store whose event `e1` has three participants and no
photos. -/
def exDbC4 : DB :=
  { users := [],
    organizationUsers := [exOrgUser1],
    events := [exEventC2],
    participants := [{ id := "p1", eventId := "e1", userId := none,
                       name := some ("Ann"), email := some ("ann@example.com"),
                       registrationStatus := some ("Invited"), consentStatus := false,
                       referencePhotoUrl := none },
                     { id := "p2", eventId := "e1", userId := none,
                       name := some ("Ben"), email := some ("ben@example.com"),
                       registrationStatus := some ("Invited"), consentStatus := false,
                       referencePhotoUrl := none },
                     { id := "p3", eventId := "e1", userId := none,
                       name := some ("Cam"), email := some ("cam@example.com"),
                       registrationStatus := some ("Invited"), consentStatus := false,
                       referencePhotoUrl := none }],
    eventPhotos := [],
    detectedFaces := [], photoParticipantMatches := [], faceMatchingTasks := [],
    consentLogs := [] }

/-- Fixture: `exDbC4` after one photo upload. -/
def exDbC4b : DB :=
  { exDbC4 with
    eventPhotos := [{ id := "ph1", eventId := "e1", uploaderUserId := "u1",
                      imageUrl := "/stored/ph1", thumbnailUrl := none, uploadTime := 5,
                      reviewStatus := .PENDING, isPublic := false }] }

/-- Witness for C4: zero photos and three participants fail on the photos
precondition; after one upload the same request creates a PENDING task and
triggers the compute port once. -/
theorem initiateFaceMatching_preconditions_spec_witness :
    eventPageAction exDbC4 ("u1") ("e1") .initiateFaceMatching 7 ("np") ("t9") ("nu") =
      { result := RouteResult.errJson 400 noPhotosMsg, db := exDbC4, effects := [] } ∧
    eventPageAction exDbC4b ("u1") ("e1") .initiateFaceMatching 7 ("np") ("t9") ("nu") =
      { result := RouteResult.ok ("Face matching process initiated successfully."),
        db := { exDbC4b with faceMatchingTasks :=
          [{ id := "t9", eventId := "e1", status := .PENDING,
             awsRequestId := none, errorDetails := none }] },
        effects := [Effect.dbCreateTask ("t9"), Effect.lambdaTrigger ("e1") ("t9")] } := by
  have ha := initiateFaceMatching_preconditions_spec exDbC4 ("u1") ("e1") exOrgUser1 exEventC2
    (by decide) (by decide) 7 ("np") ("t9") ("nu")
  have hb := initiateFaceMatching_preconditions_spec exDbC4b ("u1") ("e1") exOrgUser1 exEventC2
    (by decide) (by decide) 7 ("np") ("t9") ("nu")
  refine ⟨(ha.1 (by decide)).1, ?_⟩
  have hsucc := (hb.2.2 (by decide) (by decide)).1
  rw [hsucc]
  decide

/-! ## C5 — duplicate participant e-mail is an operation-layer check -/

/-- C5: with the guard satisfied and a valid submission, create-participant
fails with the field-level duplicate-email error and leaves the store
untouched whenever a participant with the same e-mail already exists for
the event; and the uniqueness lives in the operation layer, not the store:
the raw insert accepts any row whose primary key is fresh, including one
repeating an existing `(eventId, email)` pair. -/
theorem createParticipant_duplicateEmail_spec
    (emailValid : String → Bool) (db : DB) (u eid fid : String)
    (m : OrganizationUserRow) (E0 : EventRow) (form : ParticipantForm) (n e : String)
    (hm : findOrgUser db u = some m)
    (hev : findEventScoped db eid m.orgId = some E0)
    (hparse : parseParticipantForm emailValid form = .ok (n, e))
    (P : ParticipantRow) (hP : P ∈ db.participants)
    (hPev : P.eventId = eid) (hPem : P.email = some e) :
    createParticipantAction emailValid db u eid fid form =
      { result := .errFields 400 [(("email"), duplicateEmailMsg)],
        db := db, effects := [] } ∧
    (∀ row : ParticipantRow, row.eventId = eid → row.email = some e →
       (∀ q ∈ db.participants, q.id ≠ row.id) →
       insertParticipantRow db row =
         .ok { db with participants := row :: db.participants }) := by
  constructor
  · have hex : (findParticipantByEmail db eid e).isSome := by
      rw [findParticipantByEmail, List.find?_isSome]
      exact ⟨P, hP, by simp [hPev, hPem]⟩
    obtain ⟨P2, hfind⟩ := Option.isSome_iff_exists.mp hex
    simp only [createParticipantAction, hm, hev, hparse, hfind]
  · intro row _ _ hids
    have hany : (db.participants.any (fun p => p.id == row.id)) = false := by
      apply List.any_eq_false.mpr
      intro q hq
      simp only [beq_iff_eq]
      exact hids q hq
    simp only [insertParticipantRow, hany, Bool.false_eq_true, if_false, ite_false]

/-- Fixture: a fresh participant row repeating `(e1, ann@example.com)`. -/
def exDupRow : ParticipantRow :=
  { id := "p9", eventId := "e1", userId := none, name := some ("Twin"),
    email := some ("ann@example.com"), registrationStatus := some ("Invited"),
    consentStatus := false, referencePhotoUrl := none }

/-- Witness for C5: duplicate submission fails at the action layer, raw
store insert of the same pair succeeds. -/
theorem createParticipant_duplicateEmail_spec_witness :
    createParticipantAction (fun _ => true) exDbC2 ("u1") ("e1") ("p9")
      { name := some ("Twin"), email := some ("ann@example.com") } =
      { result := RouteResult.errFields 400 [(("email"), duplicateEmailMsg)],
        db := exDbC2, effects := [] } ∧
    insertParticipantRow exDbC2 exDupRow =
      Except.ok { exDbC2 with participants := exDupRow :: exDbC2.participants } := by
  have h := createParticipant_duplicateEmail_spec (fun _ => true) exDbC2 ("u1") ("e1") ("p9")
    exOrgUser1 exEventC2 { name := some ("Twin"), email := some ("ann@example.com") }
    ("Twin") ("ann@example.com") (by decide) (by decide) (by rfl)
    { id := "p1", eventId := "e1", userId := none,
      name := some ("Ann"), email := some ("ann@example.com"),
      registrationStatus := some ("Invited"), consentStatus := false,
      referencePhotoUrl := none } (by decide) (by decide) (by decide)
  exact ⟨h.1, h.2 exDupRow (by decide) (by decide) (by decide)⟩

/-! ## C8 — participant creation defaults -/

/-- C8: a create-participant call that passes the guard, validation and the
duplicate check inserts exactly one row, whose `registrationStatus` is
`Invited` and whose `consentStatus` is `false`; the creation interface
(`ParticipantForm`, mirroring the zod `ParticipantSchema`) accepts only a
name and an e-mail, so every row the action ever inserts carries these
defaults. -/
theorem createParticipant_defaults_spec
    (emailValid : String → Bool) (db : DB) (u eid fid : String)
    (m : OrganizationUserRow) (E0 : EventRow) (form : ParticipantForm) (n e : String)
    (hm : findOrgUser db u = some m)
    (hev : findEventScoped db eid m.orgId = some E0)
    (hparse : parseParticipantForm emailValid form = .ok (n, e))
    (hdup : findParticipantByEmail db eid e = none) :
    createParticipantAction emailValid db u eid fid form =
      { result := .redirectTo ("/org/events/" ++ eid ++ "/participants"),
        db := { db with participants :=
          { id := fid, eventId := eid, userId := none, name := some n,
            email := some e, registrationStatus := some ("Invited"),
            consentStatus := false, referencePhotoUrl := none } :: db.participants },
        effects := [.dbCreateParticipant fid] } ∧
    (∀ p ∈ (createParticipantAction emailValid db u eid fid form).db.participants,
       p ∉ db.participants →
       p.registrationStatus = some ("Invited") ∧ p.consentStatus = false) := by
  have hact : createParticipantAction emailValid db u eid fid form =
      { result := .redirectTo ("/org/events/" ++ eid ++ "/participants"),
        db := { db with participants :=
          { id := fid, eventId := eid, userId := none, name := some n,
            email := some e, registrationStatus := some ("Invited"),
            consentStatus := false, referencePhotoUrl := none } :: db.participants },
        effects := [.dbCreateParticipant fid] } := by
    simp only [createParticipantAction, hm, hev, hparse, hdup]
  refine ⟨hact, ?_⟩
  rw [hact]
  intro p hp hnotold
  rcases List.mem_cons.mp hp with hnew | hold
  · subst hnew
    exact ⟨rfl, rfl⟩
  · exact absurd hold hnotold

/-- Witness for C8 at a concrete fresh submission. -/
theorem createParticipant_defaults_spec_witness :
    createParticipantAction (fun _ => true) exDbC4 ("u1") ("e1") ("p4")
      { name := some ("Dee"), email := some ("dee@example.com") } =
      { result := RouteResult.redirectTo ("/org/events/e1/participants"),
        db := { exDbC4 with participants :=
          { id := "p4", eventId := "e1", userId := none, name := some ("Dee"),
            email := some ("dee@example.com"), registrationStatus := some ("Invited"),
            consentStatus := false, referencePhotoUrl := none } :: exDbC4.participants },
        effects := [Effect.dbCreateParticipant ("p4")] } := by
  have h := createParticipant_defaults_spec (fun _ => true) exDbC4 ("u1") ("e1") ("p4")
    exOrgUser1 exEventC2 { name := some ("Dee"), email := some ("dee@example.com") }
    ("Dee") ("dee@example.com") (by decide) (by decide) (by rfl) (by decide)
  rw [h.1]
  rfl

/-! ## C7 — delete-photo: event-scoped resolution, db-then-storage order -/

/-- C7: the delete-photo intent resolves the photo by id scoped to the
target event.  If that lookup fails the action returns 404 with the store
unchanged and an empty effect trace (no storage request at all).  If it
succeeds the full trace is exactly the database-row deletion followed by
the storage-deletion request — so the storage request is only ever issued
after the row is gone, and indeed no photo row with that id survives in
the store the storage port observes. -/
theorem deletePhoto_order_spec
    (db : DB) (u eid : String) (m : OrganizationUserRow) (E0 : EventRow)
    (hm : findOrgUser db u = some m)
    (hev : findEventScoped db eid m.orgId = some E0)
    (now : Nat) (fp ft su pid : String) (hpid : pid ≠ "") :
    (findPhotoScoped db pid eid = none →
       eventPageAction db u eid (.deletePhoto pid) now fp ft su =
         { result := .errJson 404 photoNotFoundMsg, db := db, effects := [] }) ∧
    (∀ photo, findPhotoScoped db pid eid = some photo →
       eventPageAction db u eid (.deletePhoto pid) now fp ft su =
         { result := .ok ("Photo deleted successfully."),
           db := deletePhotoCascade db pid,
           effects := [.dbDeletePhoto pid, .storageDelete photo.imageUrl] } ∧
       (eventPageAction db u eid (.deletePhoto pid) now fp ft su).effects.head? =
         some (.dbDeletePhoto pid) ∧
       (∀ p ∈ (deletePhotoCascade db pid).eventPhotos, p.id ≠ pid)) := by
  have hpid2 : (pid == "") = false := by
    simp only [beq_eq_false_iff_ne, ne_eq]
    exact hpid
  constructor
  · intro hnone
    simp only [eventPageAction, hm, hev, hpid2, Bool.false_eq_true, if_false,
      ite_false, hnone]
  · intro photo hfound
    have hact : eventPageAction db u eid (.deletePhoto pid) now fp ft su =
        { result := .ok ("Photo deleted successfully."),
          db := deletePhotoCascade db pid,
          effects := [.dbDeletePhoto pid, .storageDelete photo.imageUrl] } := by
      simp only [eventPageAction, hm, hev, hpid2, Bool.false_eq_true, if_false,
        ite_false, hfound]
    refine ⟨hact, ?_, ?_⟩
    · rw [hact]
      rfl
    · intro p hp
      have h := (List.mem_filter.mp hp).2
      simpa [bne_iff_ne] using h

/-- Witness for C7: a missing photo id fails without effects; a present one
is removed from the store before the storage request. -/
theorem deletePhoto_order_spec_witness :
    eventPageAction exDbC2 ("u1") ("e1") (.deletePhoto ("zz")) 7 ("np") ("nt") ("nu") =
      { result := RouteResult.errJson 404 photoNotFoundMsg, db := exDbC2, effects := [] } ∧
    eventPageAction exDbC2 ("u1") ("e1") (.deletePhoto ("ph1")) 7 ("np") ("nt") ("nu") =
      { result := RouteResult.ok ("Photo deleted successfully."),
        db := deletePhotoCascade exDbC2 ("ph1"),
        effects := [Effect.dbDeletePhoto ("ph1"),
                    Effect.storageDelete ("/stored/ph1")] } := by
  have h1 := deletePhoto_order_spec exDbC2 ("u1") ("e1") exOrgUser1 exEventC2
    (by decide) (by decide) 7 ("np") ("nt") ("nu") ("zz") (by decide)
  have h2 := deletePhoto_order_spec exDbC2 ("u1") ("e1") exOrgUser1 exEventC2
    (by decide) (by decide) 7 ("np") ("nt") ("nu") ("ph1") (by decide)
  refine ⟨h1.1 (by decide), ?_⟩
  exact (h2.2 { id := "ph1", eventId := "e1", uploaderUserId := "u1",
                imageUrl := "/stored/ph1", thumbnailUrl := none, uploadTime := 5,
                reviewStatus := .PENDING, isPublic := false } (by decide)).1

/-! ## C9 — `(photoId, participantId)` uniqueness of matches -/

/-- C9: the store (per the schema's `@@unique([photoId, participantId])`)
rejects any insert of a match row whose pair is already present, and a
successful insert preserves the at-most-one-row-per-pair invariant — so a
store that satisfies it keeps satisfying it under the only operation that
creates match rows. -/
theorem photoParticipantMatch_unique_spec
    (db db2 : DB) (r r2 : PhotoParticipantMatchRow) :
    ((∃ mt ∈ db.photoParticipantMatches,
        mt.photoId = r.photoId ∧ mt.participantId = r.participantId) →
      ∃ msg, insertPhotoParticipantMatch db r = .error msg) ∧
    (matchPairUnique db2 →
      ∀ db2', insertPhotoParticipantMatch db2 r2 = .ok db2' → matchPairUnique db2') := by
  constructor
  · rintro ⟨mt, hmt, h1, h2⟩
    by_cases hid : (db.photoParticipantMatches.any (fun m => m.id == r.id)) = true
    · exact ⟨("UNIQUE constraint failed: PhotoParticipantMatch.id"),
        by simp only [insertPhotoParticipantMatch, hid, if_true, ite_true]⟩
    · rw [Bool.not_eq_true] at hid
      have hpair : (db.photoParticipantMatches.any
          (fun m => m.photoId == r.photoId && m.participantId == r.participantId)) = true :=
        List.any_eq_true.mpr ⟨mt, hmt, by simp [h1, h2]⟩
      exact ⟨("UNIQUE constraint failed: PhotoParticipantMatch.photoId, PhotoParticipantMatch.participantId"),
        by simp only [insertPhotoParticipantMatch, hid, Bool.false_eq_true,
          if_false, ite_false, hpair, if_true, ite_true]⟩
  · intro hu db2' hins
    by_cases hid : (db2.photoParticipantMatches.any (fun m => m.id == r2.id)) = true
    · rw [insertPhotoParticipantMatch] at hins
      simp only [hid, if_true, ite_true] at hins
      exact Except.noConfusion hins
    · rw [Bool.not_eq_true] at hid
      by_cases hpair : (db2.photoParticipantMatches.any
          (fun m => m.photoId == r2.photoId && m.participantId == r2.participantId)) = true
      · rw [insertPhotoParticipantMatch] at hins
        simp only [hid, Bool.false_eq_true, if_false, ite_false, hpair, if_true,
          ite_true] at hins
        exact Except.noConfusion hins
      · rw [Bool.not_eq_true] at hpair
        rw [insertPhotoParticipantMatch] at hins
        simp only [hid, hpair, Bool.false_eq_true, if_false, ite_false,
          Except.ok.injEq] at hins
        subst hins
        show List.Pairwise _ (r2 :: db2.photoParticipantMatches)
        refine List.Pairwise.cons ?_ hu
        intro b hb hcontra
        have hnb := List.any_eq_false.mp hpair b hb
        simp only [Bool.and_eq_true, beq_iff_eq, not_and] at hnb
        exact hnb hcontra.1.symm hcontra.2.symm

/-- Fixture: a store with a single `(ph1, p1)` match row. -/
def exDbC9 : DB :=
  { users := [], organizationUsers := [], events := [], participants := [],
    eventPhotos := [], detectedFaces := [],
    photoParticipantMatches := [{ id := "mt1", photoId := "ph1", participantId := "p1" }],
    faceMatchingTasks := [], consentLogs := [] }

/-- Fixture: a second row for the already-matched `(ph1, p1)` pair. -/
def exDupMatch : PhotoParticipantMatchRow := { id := "mt2", photoId := "ph1", participantId := "p1" }

/-- Fixture: a row for a fresh `(ph1, p2)` pair. -/
def exFreshMatch : PhotoParticipantMatchRow := { id := "mt3", photoId := "ph1", participantId := "p2" }

/-- Witness for C9: the duplicate pair is rejected, and a fresh pair keeps
the invariant. -/
theorem photoParticipantMatch_unique_spec_witness :
    (∃ msg, insertPhotoParticipantMatch exDbC9 exDupMatch = Except.error msg) ∧
    matchPairUnique { exDbC9 with
      photoParticipantMatches := exFreshMatch :: exDbC9.photoParticipantMatches } := by
  have h := photoParticipantMatch_unique_spec exDbC9 exDbC9 exDupMatch exFreshMatch
  refine ⟨h.1 ⟨{ id := "mt1", photoId := "ph1", participantId := "p1" },
    by decide, by decide, by decide⟩, ?_⟩
  exact h.2 (by decide) _ (by rfl)

/-! ## C10 — failed logins are indistinguishable across causes -/

/-- C10: the login strategy produces the identical generic
`Invalid login credentials.` error whether no user row exists for the
submitted e-mail or the user exists but the bcrypt comparison rejects the
password, so a failed login does not reveal whether an e-mail is
registered. -/
theorem login_noEmailEnumeration_spec
    (bcryptCompare : String → String → Bool) (db db2 : DB)
    (e1 p1 e2 p2 : String) (user : UserRow)
    (h1e : e1 ≠ "") (h1p : p1 ≠ "")
    (h2e : e2 ≠ "") (h2p : p2 ≠ "")
    (hnone : findUserByEmail db e1 = none)
    (hsome : findUserByEmail db2 e2 = some user)
    (hbad : bcryptCompare p2 user.passwordHash = false) :
    formStrategyVerify bcryptCompare db e1 p1 = .error invalidLoginMsg ∧
    formStrategyVerify bcryptCompare db2 e2 p2 = .error invalidLoginMsg ∧
    formStrategyVerify bcryptCompare db e1 p1 =
      formStrategyVerify bcryptCompare db2 e2 p2 := by
  have hc1 : ((e1 == "") || (p1 == "")) = false := by
    simp only [Bool.or_eq_false_iff, beq_eq_false_iff_ne, ne_eq]
    exact ⟨h1e, h1p⟩
  have hc2 : ((e2 == "") || (p2 == "")) = false := by
    simp only [Bool.or_eq_false_iff, beq_eq_false_iff_ne, ne_eq]
    exact ⟨h2e, h2p⟩
  have ha : formStrategyVerify bcryptCompare db e1 p1 = .error invalidLoginMsg := by
    simp only [formStrategyVerify, hc1, Bool.false_eq_true, if_false, ite_false, hnone]
  have hb : formStrategyVerify bcryptCompare db2 e2 p2 = .error invalidLoginMsg := by
    simp only [formStrategyVerify, hc2, Bool.false_eq_true, if_false, ite_false, hsome,
      hbad]
  exact ⟨ha, hb, ha.trans hb.symm⟩

/-- Fixture: a store with one registered user. -/
def exDbC10 : DB :=
  { users := [{ id := "u1", email := "ann@example.com", passwordHash := "H1",
                name := some ("Ann"), role := .ORGANIZATION_ADMIN }],
    organizationUsers := [], events := [], participants := [], eventPhotos := [],
    detectedFaces := [], photoParticipantMatches := [], faceMatchingTasks := [],
    consentLogs := [] }

/-- Witness for C10: unknown e-mail and wrong password produce the same
error value. -/
theorem login_noEmailEnumeration_spec_witness :
    formStrategyVerify (fun p h => p == "pw" && h == "H1") exDbC10
      ("ghost@example.com") ("pw") = Except.error invalidLoginMsg ∧
    formStrategyVerify (fun p h => p == "pw" && h == "H1") exDbC10
      ("ann@example.com") ("bad") = Except.error invalidLoginMsg := by
  have h := login_noEmailEnumeration_spec (fun p h => p == "pw" && h == "H1")
    exDbC10 exDbC10 ("ghost@example.com") ("pw") ("ann@example.com") ("bad")
    { id := "u1", email := "ann@example.com", passwordHash := "H1",
      name := some ("Ann"), role := .ORGANIZATION_ADMIN }
    (by decide) (by decide) (by decide) (by decide)
    (by decide) (by decide) (by decide)
  exact ⟨h.1, h.2.1⟩

/-! ## C6 — update-event overwrite semantics (corrected: omitted text
fields are "no change", not clearing) -/

/-- Fixture: a stored event with a description, a location name and an end
date. -/
def exEventC6 : EventRow :=
  { id := "e1", orgId := "o1", categoryId := none, name := "Old Name",
    dateStart := 1, dateEnd := some 2, status := .DRAFT,
    description := some ("keep"), locationName := some ("Hall"),
    locationAddress := none, isPublic := true }

/-- Fixture: a store holding that event under `u1`'s organization. -/
def exDbC6 : DB :=
  { users := [], organizationUsers := [exOrgUser1], events := [exEventC6],
    participants := [], eventPhotos := [], detectedFaces := [],
    photoParticipantMatches := [], faceMatchingTasks := [], consentLogs := [] }

/-- Fixture: a date parser recognising exactly the submitted start date. -/
def exParseDate : String → Option Nat :=
  fun s => if s == "2025-05-01" then some 100 else none

/-- Fixture: a valid edit submission that omits the `dateEnd`,
`description`, `locationName`, `locationAddress` and `isPublic` keys. -/
def exFormC6 : EventForm :=
  { name := some ("New Name"), dateStart := some ("2025-05-01"), dateEnd := none,
    description := none, locationName := none, locationAddress := none,
    status := some ("ACTIVE"), isPublic := none }

/-- C6 counterexample: a successful update whose submission omits the
optional `description` and `locationName` keys leaves those stored values
untouched (`keep` / `Hall`) — Prisma receives `undefined` and skips the
columns — so omission is "no change" for these fields, not an
authoritative clearing.  (`dateEnd` and `isPublic` are indeed cleared.) -/
theorem updateEvent_omission_counterexample :
    (editEventAction exParseDate exDbC6 ("u1") ("e1") exFormC6).result =
      RouteResult.redirectTo ("/org/events/e1") ∧
    (editEventAction exParseDate exDbC6 ("u1") ("e1") exFormC6).db.events =
      [{ id := "e1", orgId := "o1", categoryId := none, name := "New Name",
         dateStart := 100, dateEnd := none, status := .ACTIVE,
         description := some ("keep"), locationName := some ("Hall"),
         locationAddress := none, isPublic := false }] := by
  constructor <;> decide

/-- C6 amended: a successful update overwrites `name`, `dateStart`,
`status` and `isPublic` with the submitted values; an omitted or empty
`dateEnd` and an unchecked `isPublic` are authoritative clearings; but
`description`, `locationName` and `locationAddress` are overwritten only
when their key is present in the submission — an omitted key reaches
Prisma as `undefined` and leaves the stored value unchanged. -/
theorem updateEvent_overwrite_amended
    (parseDate : String → Option Nat) (db : DB) (u eid : String)
    (m : OrganizationUserRow) (E0 : EventRow) (form : EventForm) (d : ParsedEventForm)
    (hm : findOrgUser db u = some m)
    (hparse : parseEventForm parseDate form = .ok d)
    (hev : findEventScoped db eid m.orgId = some E0) :
    editEventAction parseDate db u eid form =
      { result := .redirectTo ("/org/events/" ++ eid),
        db := { db with events := db.events.map (fun e =>
          if e.id == eid then applyEventUpdate parseDate e d else e) },
        effects := [.dbUpdateEvent eid] } ∧
    (∀ e : EventRow,
       (applyEventUpdate parseDate e d).name = d.name ∧
       (applyEventUpdate parseDate e d).status = d.status ∧
       (applyEventUpdate parseDate e d).isPublic = d.isPublic ∧
       (d.dateEnd = none → (applyEventUpdate parseDate e d).dateEnd = none) ∧
       (∀ s, d.dateEnd = some s → s.isEmpty = true →
          (applyEventUpdate parseDate e d).dateEnd = none) ∧
       (d.description = none →
          (applyEventUpdate parseDate e d).description = e.description) ∧
       (∀ s, d.description = some s →
          (applyEventUpdate parseDate e d).description = some s) ∧
       (d.locationName = none →
          (applyEventUpdate parseDate e d).locationName = e.locationName) ∧
       (∀ s, d.locationName = some s →
          (applyEventUpdate parseDate e d).locationName = some s) ∧
       (d.locationAddress = none →
          (applyEventUpdate parseDate e d).locationAddress = e.locationAddress) ∧
       (∀ s, d.locationAddress = some s →
          (applyEventUpdate parseDate e d).locationAddress = some s)) := by
  constructor
  · simp only [editEventAction, hm, hparse, hev]
  · intro e
    refine ⟨rfl, rfl, rfl, ?_, ?_, ?_, ?_, ?_, ?_, ?_, ?_⟩
    · intro h; simp [applyEventUpdate, h]
    · intro s h hs; simp [applyEventUpdate, h, hs]
    · intro h; simp [applyEventUpdate, h]
    · intro s h; simp [applyEventUpdate, h]
    · intro h; simp [applyEventUpdate, h]
    · intro s h; simp [applyEventUpdate, h]
    · intro h; simp [applyEventUpdate, h]
    · intro s h; simp [applyEventUpdate, h]

/-- Witness for the amended C6: the concrete update above applies
`applyEventUpdate` to the matching row. -/
theorem updateEvent_overwrite_amended_witness :
    editEventAction exParseDate exDbC6 ("u1") ("e1") exFormC6 =
      { result := RouteResult.redirectTo ("/org/events/e1"),
        db := { exDbC6 with events := exDbC6.events.map (fun e =>
          if e.id == "e1" then
            applyEventUpdate exParseDate e
              { name := "New Name", dateStart := "2025-05-01", dateEnd := none,
                description := none, locationName := none, locationAddress := none,
                status := .ACTIVE, isPublic := false }
          else e) },
        effects := [Effect.dbUpdateEvent ("e1")] } := by
  have h := updateEvent_overwrite_amended exParseDate exDbC6 ("u1") ("e1")
    exOrgUser1 exEventC6 exFormC6
    { name := "New Name", dateStart := "2025-05-01", dateEnd := none,
      description := none, locationName := none, locationAddress := none,
      status := .ACTIVE, isPublic := false }
    (by decide) (by rfl) (by decide)
  rw [h.1]
  rfl

end PhotoDistributor
